import Mathlib

/-!
# Verification of the skinny-orm query-builder core

Shallow embedding of the repository's query-builder/expression/execution
core, and proofs of the specification's claims about it.

Embedded sources:
* `skinny_orm/base_field.py` — `Comparator`, `BaseField` and its operator
  methods (`__eq__`, `__gt__`, ..., `__and__`, `__or__`).
* `skinny_orm/orm.py` — the generic `Orm` session and its own copy of
  `BaseField` (whose `__or__` differs from the base one).
* `skinny_orm/sqlite_orm.py` — the `SqliteOrm` session: query generation,
  where/set rendering, row marshaling, and the execute/recover logic of
  `all` / `first` / `insert` / `bulk_insert`.

The external SQLite store (connection/cursor) is modelled abstractly as a
`Store` holding one table for the current entity, with an error-injection
field; cursors are modelled by tracking, per run, whether every cursor the
run acquired was closed before the run returned or propagated an error.
Python exceptions are values of `PyErr`; the recursive retry of the
`insert`/`all`/`first`/`bulk_insert` verbs is made total with a fuel
parameter (`Outcome.nofuel` marks runs whose recursion exceeded the fuel,
i.e. non-termination in the limit).
-/

set_option autoImplicit false

namespace SkinnyOrm

/-- Declared field types, per `SqliteOrm.PYTHON_TYPES_TO_SQLITE_MAPPING`
(`int`, `str`, `float`, `datetime`). -/
inductive FieldType where
  | tInt
  | tStr
  | tFloat
  | tDatetime
  deriving DecidableEq, Repr

/-- Opaque column/operand values carried through queries and rows. -/
inductive Val where
  | vInt (n : Int)
  | vStr (s : String)
  | vFloat (q : Rat)
  | vNone
  deriving DecidableEq, Repr

/-- Embeds `base_field.py` / `orm.py` `Comparator`: `{field_name, comparator, other}`. -/
structure Comparator where
  field_name : String
  comparator : String
  other : Val
  deriving DecidableEq, Repr

/-- Embeds `base_field.py` / `orm.py` `BaseField`: a field handle accumulating
comparators and `and`/`or` connector tokens. -/
structure BaseField where
  field_name : String
  comparators : List Comparator
  and_or_s : List String
  deriving DecidableEq, Repr

/-- Embeds `BaseField.__init__`: fresh handle with empty comparator and connector lists. -/
def BaseField.init (field_name : String) : BaseField :=
  { field_name := field_name, comparators := [], and_or_s := [] }

/-- Embeds `BaseField.__eq__`: append a `=` comparator, return the (mutated) handle. -/
def BaseField.cmpEq (f : BaseField) (other : Val) : BaseField :=
  { f with comparators := f.comparators ++ [⟨f.field_name, "=", other⟩] }

/-- Embeds `BaseField.__gt__`. -/
def BaseField.cmpGt (f : BaseField) (other : Val) : BaseField :=
  { f with comparators := f.comparators ++ [⟨f.field_name, ">", other⟩] }

/-- Embeds `BaseField.__ge__`. -/
def BaseField.cmpGe (f : BaseField) (other : Val) : BaseField :=
  { f with comparators := f.comparators ++ [⟨f.field_name, ">=", other⟩] }

/-- Embeds `BaseField.__le__`. -/
def BaseField.cmpLe (f : BaseField) (other : Val) : BaseField :=
  { f with comparators := f.comparators ++ [⟨f.field_name, "<=", other⟩] }

/-- Embeds `BaseField.__lt__`. -/
def BaseField.cmpLt (f : BaseField) (other : Val) : BaseField :=
  { f with comparators := f.comparators ++ [⟨f.field_name, "<", other⟩] }

/-- Embeds `BaseField.__ne__`. -/
def BaseField.cmpNe (f : BaseField) (other : Val) : BaseField :=
  { f with comparators := f.comparators ++ [⟨f.field_name, "!=", other⟩] }

/-- Embeds `base_field.py` `BaseField.__and__`: extend the left comparator list with
the right one and append an `and` connector. -/
def baseAnd (l r : BaseField) : BaseField :=
  { l with comparators := l.comparators ++ r.comparators,
           and_or_s := l.and_or_s ++ ["and"] }

/-- Embeds `base_field.py` `BaseField.__or__`: append an `or` connector only; the
right-hand comparator list is NOT merged (`other` is unused in the source). -/
def baseOr (l : BaseField) (_r : BaseField) : BaseField :=
  { l with and_or_s := l.and_or_s ++ ["or"] }

/-- Embeds `orm.py` `BaseField.__and__`: extend comparators and append `and`. -/
def ormAnd (l r : BaseField) : BaseField :=
  { l with comparators := l.comparators ++ r.comparators,
           and_or_s := l.and_or_s ++ ["and"] }

/-- Embeds `orm.py` `BaseField.__or__`: extend comparators AND append `or`
(unlike `base_field.py`). -/
def ormOr (l r : BaseField) : BaseField :=
  { l with comparators := l.comparators ++ r.comparators,
           and_or_s := l.and_or_s ++ ["or"] }

/-! ## Where-clause rendering (`SqliteOrm.where` / `Orm.where`, loop body)

The Python loop walks `base_field.comparators`, appending
`f"{Entity}.{field} {op} ? "` to `current_where` and `comp.other` to
`current_params`, and after each comparator consumes the next connector
(if any) from the iterator over `and_or_s`, appending `f"{and_or} "`. -/

/-- The accumulator loop of `where`: comparator list, remaining connector
tokens, where-text accumulator, parameter accumulator. -/
def whereLoopAcc (entity : String) :
    List Comparator → List String → String → List Val → String × List Val
  | [], _, w, ps => (w, ps)
  | c :: cs, conns, w, ps =>
    let ps' := ps ++ [c.other]
    let w' := w ++ entity ++ "." ++ c.field_name ++ " " ++ c.comparator ++ " ? "
    match conns with
    | [] => whereLoopAcc entity cs [] w' ps'
    | k :: ks => whereLoopAcc entity cs ks (w' ++ k ++ " ") ps'

/-- Direct (non-accumulator) left-to-right interleaving of comparator
renderings and connector tokens; used as the specification shape of the
where-text. -/
def whereText (entity : String) : List Comparator → List String → String
  | [], _ => ""
  | c :: cs, conns =>
    let piece := entity ++ "." ++ c.field_name ++ " " ++ c.comparator ++ " ? "
    match conns with
    | [] => piece ++ whereText entity cs []
    | k :: ks => piece ++ k ++ " " ++ whereText entity cs ks

/-- One call of `where` on a freshly re-initialised session renders the
expression's contribution starting from the accumulator value `"where "`
(set by `_re_init`) and an empty parameter list. -/
def whereRender (entity : String) (e : BaseField) : String × List Val :=
  whereLoopAcc entity e.comparators e.and_or_s "where " []

/-- Mutation of the argument by `where`: it replaces `base_field.and_or_s`
by `iter(base_field.and_or_s)` and consumes one connector per rendered
comparator, so the expression afterwards holds the
exhausted/partially-consumed iterator, i.e. the connector list minus one
entry per comparator. -/
def whereConsume (e : BaseField) : BaseField :=
  { e with and_or_s := e.and_or_s.drop e.comparators.length }

theorem whereLoopAcc_eq (entity : String) :
    ∀ (cs : List Comparator) (ks : List String) (w : String) (ps : List Val),
      whereLoopAcc entity cs ks w ps =
        (w ++ whereText entity cs ks, ps ++ cs.map Comparator.other) := by
  intro cs
  induction cs with
  | nil => intro ks w ps; simp [whereLoopAcc, whereText]
  | cons c cs ih =>
    intro ks w ps
    cases ks with
    | nil =>
      simp only [whereLoopAcc, whereText, ih]
      simp [String.append_assoc]
    | cons k ks =>
      simp only [whereLoopAcc, whereText, ih]
      simp [String.append_assoc]

theorem whereText_length_le (entity : String) :
    ∀ (cs : List Comparator) (ks : List String),
      (whereText entity cs []).length ≤ (whereText entity cs ks).length := by
  intro cs
  induction cs with
  | nil => intro ks; simp [whereText]
  | cons c cs ih =>
    intro ks
    cases ks with
    | nil => exact Nat.le_refl _
    | cons k ks =>
      simp only [whereText, String.length_append]
      have h := ih ks
      omega

theorem whereText_length_lt (entity : String) (c : Comparator)
    (cs : List Comparator) (k : String) (ks : List String) :
    (whereText entity (c :: cs) []).length <
      (whereText entity (c :: cs) (k :: ks)).length := by
  simp only [whereText, String.length_append]
  have h := whereText_length_le entity cs ks
  have hsp : (" ".length : Nat) = 1 := rfl
  omega

/-! ## Schema descriptors and SQL text generation -/

/-- One dataclass field: name plus declared type (`__dataclass_fields__` entry). -/
structure Field where
  name : String
  ftype : FieldType
  deriving DecidableEq, Repr

/-- An entity kind that has a schema descriptor: a class name (`__name__`)
plus the ordered `__dataclass_fields__`.  An entity argument with no schema
descriptor (e.g. `None`) is modelled as `Option.none` at use sites. -/
structure Schema where
  name : String
  fields : List Field
  deriving DecidableEq, Repr

/-- Python exceptions distinguished by the source's handlers. -/
inductive PyErr where
  /-- Embeds `sqlite3.OperationalError`; the flag records whether `'no such table'`
  occurs in `str(e)`. -/
  | operational (noSuchTable : Bool)
  /-- Embeds `skinny_orm.exceptions.ParseError(field_name, field_type)`. -/
  | parseFailure (field_name : String) (field_type : FieldType)
  /-- Embeds `skinny_orm.exceptions.NotValidComparator`. -/
  | notValidComparator
  /-- Embeds `skinny_orm.exceptions.NotValidEntity`. -/
  | notValidEntity
  /-- A bare Python `AttributeError` (e.g. `None.__name__`). -/
  | attributeError
  /-- A bare Python `IndexError` (row shorter than the schema). -/
  | indexError
  /-- Any other exception. -/
  | generic
  deriving DecidableEq, Repr

/-- Join `Entity.field` strings with `', '` — the body shared by both
`_generate_select_query` implementations. -/
def selectQueryOf (sch : Schema) : String :=
  "select " ++
    String.intercalate ", " (sch.fields.map (fun f => sch.name ++ "." ++ f.name)) ++
    " from " ++ sch.name

/-- Embeds `SqliteOrm._generate_select_query`: the `AttributeError` raised by a
schema-less entity (`entity.__name__` / `entity.__dataclass_fields__`) is
caught and re-raised as `NotValidEntity`. -/
def generateSelectQuery : Option Schema → Except PyErr String
  | none => .error .notValidEntity
  | some sch => .ok (selectQueryOf sch)

/-- Embeds `Orm._generate_select_query` (orm.py): no `try/except` — a schema-less
entity propagates the bare `AttributeError`. -/
def ormGenerateSelectQuery : Option Schema → Except PyErr String
  | none => .error .attributeError
  | some sch => .ok (selectQueryOf sch)

/-- Embeds `_generate_insert_query`:
`INSERT INTO <Entity> (<f1>, ...) VALUES (?, ...)`. -/
def generateInsertQuery (sch : Schema) : String :=
  "INSERT INTO " ++ sch.name ++ " (" ++
    String.intercalate ", " (sch.fields.map Field.name) ++ ") VALUES (" ++
    String.intercalate ", " (sch.fields.map (fun _ => "?")) ++ ")"

/-! ## Result marshaling (`SqliteOrm._parse_and_get_new_tuple`)

The coercions themselves are external collaborators: `field.type(x)` calls
the Python constructors `int`/`str`/`float`, and `dateparser.parse` is the
external date parser.  They are passed in as functions returning
`Option Val`, with `none` standing for the `TypeError`/`ValueError` the
source converts into `ParseError`. -/

/-- Coerce one positional value: timestamp fields go through the date
parser, every other field through direct type construction. -/
def coerceOne (tc : FieldType → Val → Option Val) (dp : Val → Option Val)
    (f : Field) (v : Val) : Option Val :=
  if f.ftype = .tDatetime then dp v else tc f.ftype v

/-- The enumeration loop of `_parse_and_get_new_tuple`: walk the schema
fields positionally against the row; a row shorter than the schema is a bare
`IndexError` (`tuple_obj[index]`), a failed coercion is
`ParseError(field_name, field.type)`; values beyond the schema length are
ignored. -/
def parseLoop (tc : FieldType → Val → Option Val) (dp : Val → Option Val) :
    List Field → List Val → Except PyErr (List Val)
  | [], _ => .ok []
  | _ :: _, [] => .error .indexError
  | f :: fs, v :: vs =>
    match coerceOne tc dp f v with
    | none => .error (.parseFailure f.name f.ftype)
    | some v' =>
      match parseLoop tc dp fs vs with
      | .error e => .error e
      | .ok vs' => .ok (v' :: vs')

/-- Embeds `SqliteOrm._parse_and_get_new_tuple`: returns the raw row unchanged when
`parse_fields` is disabled, otherwise coerces positionally. -/
def parseAndGetNewTuple (tc : FieldType → Val → Option Val)
    (dp : Val → Option Val) (parse_fields : Bool) (fields : List Field)
    (row : List Val) : Except PyErr (List Val) :=
  if parse_fields then parseLoop tc dp fields row else .ok row

/-- The construction-time configuration of `SqliteOrm.__init__`, with the
source's default argument values. -/
structure SqliteOrmConfig where
  create_tables_if_not_exists : Bool := true
  parse_fields : Bool := true
  deriving DecidableEq, Repr

/-! ## Session query state

`SqliteOrm.__init__` / `SqliteOrm._re_init` own: `current_query`,
`current_entity`, `current_params`, `current_where`, `current_update_set`,
`is_delete_query`, `is_update_query`, `is_bulk_update_query`,
`update_instances`, plus the construction-time flags `parse_fields` and
`create_tables_if_not_exists` (which `_re_init` does not touch).  Record
instances are represented by their field-value lists in schema order. -/

structure SqliteSession where
  current_query : Option String
  current_entity : Option Schema
  current_params : List Val
  current_where : String
  current_update_set : String
  is_delete_query : Bool
  is_update_query : Bool
  is_bulk_update_query : Bool
  parse_fields : Bool
  create_tables_if_not_exists : Bool
  update_instances : List (List Val)
  deriving DecidableEq, Repr

/-- Embeds `SqliteOrm._re_init`: reset every piece of per-verb query state,
leaving only the construction-time configuration. -/
def SqliteSession.reInit (s : SqliteSession) : SqliteSession :=
  { s with current_query := none, current_entity := none, current_params := [],
           current_where := "where ", current_update_set := "set ",
           is_delete_query := false, is_update_query := false,
           is_bulk_update_query := false, update_instances := [] }

/-- Embeds `SqliteOrm.select` (state part; `_create_class_fields` installs field
handles on the entity class, outside session state). -/
def sqliteSelect (sch : Schema) (s : SqliteSession) : SqliteSession :=
  let s := s.reInit
  { s with current_entity := some sch, current_query := some (selectQueryOf sch) }

/-- Embeds `SqliteOrm.insert`, statement-preparation part (before the execute):
re-init, generate the insert SQL, extend `current_params` with the
instance's field values. -/
def sqliteInsertPrepare (sch : Schema) (vals : List Val) (s : SqliteSession) :
    SqliteSession :=
  let s := s.reInit
  { s with current_query := some (generateInsertQuery sch),
           current_params := s.current_params ++ vals }

/-- Embeds `SqliteOrm.bulk_insert`, statement-preparation part for a non-empty
instance list (parameters become one row per instance; modelled by keeping
the per-instance rows in `update_instances`-free form is not needed here,
only the re-init and query text matter for the claims). -/
def sqliteBulkInsertPrepare (sch : Schema) (s : SqliteSession) : SqliteSession :=
  let s := s.reInit
  { s with current_query := some (generateInsertQuery sch) }

/-- Embeds `SqliteOrm.update` with a type argument (no pending instance) or an
instance argument (queued as the one pending source row). -/
def sqliteUpdate (sch : Schema) (inst : Option (List Val)) (s : SqliteSession) :
    SqliteSession :=
  let s := s.reInit
  { s with current_entity := some sch,
           update_instances := match inst with | some i => [i] | none => [],
           current_query := some ("update " ++ sch.name ++ " "),
           is_update_query := true }

/-- Embeds `SqliteOrm.bulk_update`. -/
def sqliteBulkUpdate (sch : Schema) (insts : List (List Val))
    (s : SqliteSession) : SqliteSession :=
  let s := s.reInit
  { s with is_bulk_update_query := true, current_entity := some sch,
           update_instances := insts,
           current_query := some ("update " ++ sch.name ++ " "),
           is_update_query := true }

/-- Embeds `SqliteOrm.delete`. -/
def sqliteDelete (sch : Schema) (s : SqliteSession) : SqliteSession :=
  let s := s.reInit
  { s with current_entity := some sch, is_delete_query := true,
           current_query := some ("delete from " ++ sch.name) }

/-- Embeds `SqliteOrm.set`: check `set_clause.comparators[0].comparator` and raise
`NotValidComparator` for anything but `'='` before touching any state;
otherwise append `<field> = ? ` (comma-separated after the first assignment)
and push the operand onto `current_params`, returning the session. -/
def setVerb (s : SqliteSession) (set_clause : BaseField) :
    Except PyErr SqliteSession :=
  match set_clause.comparators.head? with
  | none => .error .indexError
  | some c0 =>
    if c0.comparator ≠ "=" then .error .notValidComparator
    else
      let addComma := if s.current_update_set = "set " then "" else ", "
      .ok { s with
            current_update_set := s.current_update_set ++ addComma ++
              set_clause.field_name ++ " " ++ c0.comparator ++ " ? ",
            current_params := s.current_params ++ [c0.other] }

/-- The generic `Orm` session state (orm.py) — note it has no set
accumulator, update flags or pending instance list. -/
structure OrmSession where
  current_query : Option String
  current_entity : Option Schema
  current_params : List Val
  current_where : String
  is_delete_query : Bool
  parse_fields : Bool
  create_tables_if_not_exists : Bool
  deriving DecidableEq, Repr

/-- Embeds `Orm._re_init` (orm.py): clears only `current_query`, `current_params`
and `current_where` — `current_entity` and `is_delete_query` survive. -/
def OrmSession.reInit (s : OrmSession) : OrmSession :=
  { s with current_query := none, current_params := [],
           current_where := "where " }

/-- Embeds `Orm.select` (state part). -/
def ormSelect (sch : Schema) (s : OrmSession) : OrmSession :=
  let s := s.reInit
  { s with current_entity := some sch, current_query := some (selectQueryOf sch) }

/-- Embeds `Orm.delete` (state part). -/
def ormDelete (sch : Schema) (s : OrmSession) : OrmSession :=
  let s := s.reInit
  { s with current_entity := some sch, is_delete_query := true,
           current_query := some ("delete from " ++ sch.name) }

/-- A fresh `Orm(connection)` session per `Orm.__init__` defaults. -/
def freshOrmSession : OrmSession :=
  { current_query := none, current_entity := none, current_params := [],
    current_where := "where ", is_delete_query := false,
    parse_fields := true, create_tables_if_not_exists := true }

/-! ## Abstract store and the execute/recover logic

The SQLite connection is the external collaborator.  It is modelled as a
single-table store for the current entity: `tableExists` says whether the
relation exists, `rows` its contents, `createWorks` whether the vendor's
`CREATE TABLE` actually makes the table exist (`false` models a store whose
creation silently fails, the pathological case the spec discusses), and
`execFault` injects an arbitrary error into the next execute call.

Each run function mirrors one verb's `try/except` block:
* the `except sqlite3.OperationalError` handler either recovers
  (`create_tables_if_not_exists` and `'no such table'`) by calling
  `_create_table` and re-invoking the verb recursively, or re-raises —
  in both cases WITHOUT closing the cursor it acquired;
* the `except Exception` handler closes the cursor and re-raises;
* `Run.closed` records whether every cursor acquired during the run was
  closed before the run's result or error propagated;
* `Run.attempts` counts the verb's own execute round-trips (not the
  `CREATE TABLE` statements);
* recursion is bounded by fuel; `Outcome.nofuel` marks runs that still
  recurse when the fuel is exhausted. -/

structure Store where
  tableExists : Bool
  rows : List (List Val)
  createWorks : Bool
  execFault : Option PyErr
  deriving DecidableEq, Repr

/-- Embeds `SqliteOrm._create_table`, as seen through the store: a conforming store
ends up with an (empty) existing table; a store whose creation silently
fails is unchanged. -/
def Store.createTable (st : Store) : Store :=
  if st.createWorks then { st with tableExists := true, rows := [] } else st

/-- Embeds `cursor.execute(select).fetchall()`. -/
def Store.execSelectAll (st : Store) : Except PyErr (List (List Val)) :=
  match st.execFault with
  | some e => .error e
  | none =>
    if st.tableExists then .ok st.rows else .error (.operational true)

/-- Embeds `cursor.execute(select).fetchone()`. -/
def Store.execSelectOne (st : Store) : Except PyErr (Option (List Val)) :=
  match st.execFault with
  | some e => .error e
  | none =>
    if st.tableExists then .ok st.rows.head? else .error (.operational true)

/-- Embeds `cursor.execute(insert, params)`. -/
def Store.execInsert (st : Store) (row : List Val) : Except PyErr Store :=
  match st.execFault with
  | some e => .error e
  | none =>
    if st.tableExists then .ok { st with rows := st.rows ++ [row] }
    else .error (.operational true)

/-- Embeds `cursor.executemany(insert, param_rows)`. -/
def Store.execInsertMany (st : Store) (batch : List (List Val)) :
    Except PyErr Store :=
  match st.execFault with
  | some e => .error e
  | none =>
    if st.tableExists then .ok { st with rows := st.rows ++ batch }
    else .error (.operational true)

/-- Result of one verb run. -/
inductive Outcome (α : Type) where
  | ok (a : α)
  | err (e : PyErr)
  | nofuel
  deriving DecidableEq, Repr

structure Run (α : Type) where
  res : Outcome α
  st : Store
  closed : Bool
  attempts : Nat
  deriving DecidableEq, Repr

/-- Map a row-marshaling function over fetched rows; the first failure
aborts (the list comprehension in `all`). -/
def parseRows (parse : List Val → Except PyErr (List Val)) :
    List (List Val) → Except PyErr (List (List Val))
  | [] => .ok []
  | r :: rs =>
    match parse r with
    | .error e => .error e
    | .ok v =>
      match parseRows parse rs with
      | .error e => .error e
      | .ok vs => .ok (v :: vs)

/-- Embeds `SqliteOrm.all` (execution): fetchall, close, marshal each row (a
marshaling failure is caught by the generic handler, which closes the
already-closed cursor again and re-raises); on a missing-table
`OperationalError` with auto-create enabled, `_create_table` on the same
cursor and `return self.all(commit)` — the outer cursor is never closed;
any other `OperationalError` is re-raised without closing. -/
def allRun (parse : List Val → Except PyErr (List Val)) :
    Nat → Bool → Store → Run (List (List Val))
  | 0, _, st => ⟨.nofuel, st, true, 0⟩
  | n + 1, auto, st =>
    match st.execSelectAll with
    | .ok rows =>
      match parseRows parse rows with
      | .ok recs => ⟨.ok recs, st, true, 1⟩
      | .error e => ⟨.err e, st, true, 1⟩
    | .error (.operational noTab) =>
      if auto && noTab then
        let r := allRun parse n auto st.createTable
        { r with closed := r.closed && false, attempts := r.attempts + 1 }
      else ⟨.err (.operational noTab), st, false, 1⟩
    | .error e => ⟨.err e, st, true, 1⟩

/-- Embeds `SqliteOrm.first` (execution): fetchone; a `None` result returns the
absence marker WITHOUT closing the cursor; a row closes the cursor and
marshals (failure re-caught and closed by the generic handler); the
missing-table recovery calls `self.first()` recursively but DISCARDS its
result, so the handler falls through and the function returns `None`. -/
def firstRun (parse : List Val → Except PyErr (List Val)) :
    Nat → Bool → Store → Run (Option (List Val))
  | 0, _, st => ⟨.nofuel, st, true, 0⟩
  | n + 1, auto, st =>
    match st.execSelectOne with
    | .ok none => ⟨.ok none, st, false, 1⟩
    | .ok (some row) =>
      match parse row with
      | .ok rec => ⟨.ok (some rec), st, true, 1⟩
      | .error e => ⟨.err e, st, true, 1⟩
    | .error (.operational noTab) =>
      if auto && noTab then
        let r := firstRun parse n auto st.createTable
        match r.res with
        | .ok _ => ⟨.ok none, r.st, r.closed && false, r.attempts + 1⟩
        | .err e2 => ⟨.err e2, r.st, r.closed && false, r.attempts + 1⟩
        | .nofuel => ⟨.nofuel, r.st, false, r.attempts + 1⟩
      else ⟨.err (.operational noTab), st, false, 1⟩
    | .error e => ⟨.err e, st, true, 1⟩

/-- Embeds `SqliteOrm.insert` (execution): execute + commit + close on success; on
a missing-table `OperationalError` with auto-create, `_create_table` from
the instance's class and a recursive `self.insert(instance, commit)` whose
result is discarded (the outer cursor is never closed); otherwise re-raise
without closing; generic exceptions close and re-raise. -/
def insertRun : Nat → Bool → List Val → Store → Run Unit
  | 0, _, _, st => ⟨.nofuel, st, true, 0⟩
  | n + 1, auto, row, st =>
    match st.execInsert row with
    | .ok st' => ⟨.ok (), st', true, 1⟩
    | .error (.operational noTab) =>
      if auto && noTab then
        let r := insertRun n auto row st.createTable
        match r.res with
        | .ok _ => ⟨.ok (), r.st, r.closed && false, r.attempts + 1⟩
        | .err e2 => ⟨.err e2, r.st, r.closed && false, r.attempts + 1⟩
        | .nofuel => ⟨.nofuel, r.st, false, r.attempts + 1⟩
      else ⟨.err (.operational noTab), st, false, 1⟩
    | .error e => ⟨.err e, st, true, 1⟩

/-- Embeds `SqliteOrm.bulk_insert` (execution): no-op on an empty instance list,
otherwise one batched `executemany` with the same recover-or-raise
structure as `insert`. -/
def bulkInsertRun : Nat → Bool → List (List Val) → Store → Run Unit
  | 0, _, _, st => ⟨.nofuel, st, true, 0⟩
  | n + 1, auto, batch, st =>
    if batch.isEmpty then ⟨.ok (), st, true, 0⟩
    else
      match st.execInsertMany batch with
      | .ok st' => ⟨.ok (), st', true, 1⟩
      | .error (.operational noTab) =>
        if auto && noTab then
          let r := bulkInsertRun n auto batch st.createTable
          match r.res with
          | .ok _ => ⟨.ok (), r.st, r.closed && false, r.attempts + 1⟩
          | .err e2 => ⟨.err e2, r.st, r.closed && false, r.attempts + 1⟩
          | .nofuel => ⟨.nofuel, r.st, false, r.attempts + 1⟩
        else ⟨.err (.operational noTab), st, false, 1⟩
      | .error e => ⟨.err e, st, true, 1⟩

/-- A store whose `CREATE TABLE` silently fails to make the table exist —
the pathological vendor the spec's retry-cap discussion is about. -/
def badStore : Store :=
  { tableExists := false, rows := [], createWorks := false, execFault := none }

/-! ## Fixtures -/

/-- The `User` dataclass of the repository's tests:
`id: int, name: str, age: int, birth: datetime, percentage: float`. -/
def demoSchema : Schema :=
  { name := "User",
    fields := [⟨"id", .tInt⟩, ⟨"name", .tStr⟩, ⟨"age", .tInt⟩,
               ⟨"birth", .tDatetime⟩, ⟨"percentage", .tFloat⟩] }

/-- The expression `(id > 5) & (age < 7)` built through the embedded
`base_field.py` operators. -/
def exprIdAge : BaseField :=
  baseAnd ((BaseField.init "id").cmpGt (.vInt 5))
    ((BaseField.init "age").cmpLt (.vInt 7))

/-- The single-comparator, connector-free expression `id > 5`. -/
def exprIdOnly : BaseField := (BaseField.init "id").cmpGt (.vInt 5)

/-! ## Claims -/

/-- Claim C3: Combining two field-handle expressions with `and` appends the
right side's comparator list and an `and` connector, identically in
`base_field.py` and `orm.py`; `base_field.py`'s `or` appends only an `or`
connector without merging comparator lists, while `orm.py`'s `or` also
merges them — the two implementations agree on `and` and diverge exactly on
`or` (their `or` results coincide precisely when the right side has no
comparators). -/
theorem C3_and_or_semantics (l r : BaseField) :
    baseAnd l r = ormAnd l r ∧
    (baseAnd l r).comparators = l.comparators ++ r.comparators ∧
    (baseAnd l r).and_or_s = l.and_or_s ++ ["and"] ∧
    (baseOr l r).comparators = l.comparators ∧
    (baseOr l r).and_or_s = l.and_or_s ++ ["or"] ∧
    (ormOr l r).comparators = l.comparators ++ r.comparators ∧
    (ormOr l r).and_or_s = l.and_or_s ++ ["or"] ∧
    (baseOr l r = ormOr l r ↔ r.comparators = []) := by
  refine ⟨rfl, rfl, rfl, rfl, rfl, rfl, rfl, ?_, ?_⟩
  · intro h
    have hc := congrArg BaseField.comparators h
    simpa [baseOr, ormOr] using hc
  · intro h
    simp [baseOr, ormOr, h]

/-- Claim C4: Where-clause rendering processes comparators left-to-right,
appending `<Entity>.<field> <op> ? ` for each and pushing the operand onto
the positional parameter list in the same order, consuming connector tokens
left-to-right between comparators, prefixed by the literal `where `; in
particular `(id > 5) & (age < 7)` renders
`where E.id > ? and E.age < ? ` with parameters `[5, 7]`. -/
theorem C4_where_rendering :
    (∀ (entity : String) (e : BaseField),
        whereRender entity e =
          ("where " ++ whereText entity e.comparators e.and_or_s,
            e.comparators.map Comparator.other)) ∧
    whereRender "E" exprIdAge =
      ("where E.id > ? and E.age < ? ", [Val.vInt 5, Val.vInt 7]) := by
  refine ⟨?_, ?_⟩
  · intro entity e
    simpa using whereLoopAcc_eq entity e.comparators e.and_or_s "where " []
  · rfl

/-- Claim C10, counterexample: The claim asserts that re-passing an expression
to `where` always produces *different* where-text on the second rendering.
For the connector-free expression `id > 5` the second rendering (after the
first call exhausted the — empty — connector iterator) is identical to the
first: both are `where E.id > ? `. -/
theorem C10_counterexample :
    whereRender "E" (whereConsume exprIdOnly) = whereRender "E" exprIdOnly ∧
    (whereRender "E" exprIdOnly).1 = "where E.id > ? " := ⟨rfl, rfl⟩

/-- Claim C10, amended: `where` mutates its argument, replacing the connector
sequence by its unconsumed suffix (one connector is consumed per rendered
comparator), leaving the comparator list intact; whenever the expression has
at least one connector and no more connectors than comparators (the shape
produced by the combinators), the second pass renders the comparators with
no connector tokens between them and its where-text differs from the first
rendering. -/
theorem C10_amended :
    (∀ e : BaseField,
        (whereConsume e).comparators = e.comparators ∧
        (whereConsume e).and_or_s = e.and_or_s.drop e.comparators.length) ∧
    (∀ (entity : String) (e : BaseField),
        e.and_or_s ≠ [] →
        e.and_or_s.length ≤ e.comparators.length →
        (whereConsume e).and_or_s = [] ∧
        whereRender entity (whereConsume e) =
          ("where " ++ whereText entity e.comparators [],
            e.comparators.map Comparator.other) ∧
        (whereRender entity (whereConsume e)).1 ≠ (whereRender entity e).1) := by
  refine ⟨fun e => ⟨rfl, rfl⟩, ?_⟩
  intro entity e h1 h2
  obtain ⟨k, ks, hconns⟩ : ∃ k ks, e.and_or_s = k :: ks := by
    cases hc : e.and_or_s with
    | nil => exact absurd hc h1
    | cons k ks => exact ⟨k, ks, rfl⟩
  obtain ⟨c, cs, hcomps⟩ : ∃ c cs, e.comparators = c :: cs := by
    cases hcmp : e.comparators with
    | nil => rw [hcmp, hconns] at h2; simp at h2
    | cons c cs => exact ⟨c, cs, rfl⟩
  have hdrop : (whereConsume e).and_or_s = [] := by
    simpa [whereConsume] using List.drop_eq_nil_of_le h2
  have hrender : whereRender entity (whereConsume e) =
      ("where " ++ whereText entity e.comparators [],
        e.comparators.map Comparator.other) := by
    calc whereRender entity (whereConsume e)
        = whereLoopAcc entity e.comparators ((whereConsume e).and_or_s)
            "where " [] := rfl
      _ = whereLoopAcc entity e.comparators [] "where " [] := by rw [hdrop]
      _ = ("where " ++ whereText entity e.comparators [],
            e.comparators.map Comparator.other) := by
          simpa using whereLoopAcc_eq entity e.comparators [] "where " []
  refine ⟨hdrop, hrender, ?_⟩
  have hfst : (whereRender entity e).1 =
      "where " ++ whereText entity e.comparators e.and_or_s := by
    simpa [whereRender] using
      congrArg Prod.fst (whereLoopAcc_eq entity e.comparators e.and_or_s "where " [])
  rw [hrender, hfst]
  intro heq
  have hlen := congrArg String.length heq
  rw [String.length_append, String.length_append] at hlen
  have hlt : (whereText entity e.comparators []).length <
      (whereText entity e.comparators e.and_or_s).length := by
    rw [hcomps, hconns]; exact whereText_length_lt entity c cs k ks
  omega

/-- Witness for `C10_amended` at `(id > 5) & (age < 7)` rendered for
entity `E`. -/
theorem C10_witness :
    (whereConsume exprIdAge).and_or_s = [] ∧
    whereRender "E" (whereConsume exprIdAge) =
      ("where " ++ whereText "E" exprIdAge.comparators [],
        exprIdAge.comparators.map Comparator.other) ∧
    (whereRender "E" (whereConsume exprIdAge)).1 ≠ (whereRender "E" exprIdAge).1 :=
  C10_amended.2 "E" exprIdAge (by decide) (by decide)

/-- A fresh `SqliteOrm(connection)` session per `SqliteOrm.__init__`
defaults. -/
def freshSqliteSession : SqliteSession :=
  { current_query := none, current_entity := none, current_params := [],
    current_where := "where ", current_update_set := "set ",
    is_delete_query := false, is_update_query := false,
    is_bulk_update_query := false, parse_fields := true,
    create_tables_if_not_exists := true, update_instances := [] }

/-- Claim C5, counterexample: The claim says every top-level verb clears all
mode flags; in orm.py, `_re_init` leaves `is_delete_query` untouched, so
after `delete(User)` (never terminated by a `where`) a following
`select(User)` still carries the delete mode flag. -/
theorem C5_counterexample :
    (ormSelect demoSchema (ormDelete demoSchema freshOrmSession)).is_delete_query
      = true := rfl

/-- Claim C5, amended: In `SqliteOrm`, `_re_init` resets every piece of query
state (query text, entity, parameters, where and set accumulators, all
three mode flags, pending instance list), keeping only the configuration
flags, and every top-level verb begins with it (so each verb's result is
unchanged if the incoming state is first re-initialised).  In `Orm`
(orm.py), `_re_init` clears only the query text, parameter list and where
accumulator: the bound entity and the delete mode flag survive it and
survive a subsequent `select`. -/
theorem C5_amended :
    (∀ s : SqliteSession,
        s.reInit = { current_query := none, current_entity := none,
                     current_params := [], current_where := "where ",
                     current_update_set := "set ", is_delete_query := false,
                     is_update_query := false, is_bulk_update_query := false,
                     parse_fields := s.parse_fields,
                     create_tables_if_not_exists := s.create_tables_if_not_exists,
                     update_instances := [] }) ∧
    (∀ (sch : Schema) (vals : List Val) (insts : List (List Val))
        (inst : Option (List Val)) (s : SqliteSession),
        sqliteSelect sch s = sqliteSelect sch s.reInit ∧
        sqliteInsertPrepare sch vals s = sqliteInsertPrepare sch vals s.reInit ∧
        sqliteBulkInsertPrepare sch s = sqliteBulkInsertPrepare sch s.reInit ∧
        sqliteUpdate sch inst s = sqliteUpdate sch inst s.reInit ∧
        sqliteBulkUpdate sch insts s = sqliteBulkUpdate sch insts s.reInit ∧
        sqliteDelete sch s = sqliteDelete sch s.reInit) ∧
    (∀ (sch : Schema) (s : OrmSession),
        (OrmSession.reInit s).is_delete_query = s.is_delete_query ∧
        (OrmSession.reInit s).current_entity = s.current_entity ∧
        (ormSelect sch s).is_delete_query = s.is_delete_query) :=
  ⟨fun _ => rfl,
   fun _ _ _ _ _ => ⟨rfl, rfl, rfl, rfl, rfl, rfl⟩,
   fun _ _ => ⟨rfl, rfl, rfl⟩⟩

/-- Claim C7: `set` with a comparator whose operator is not `=` raises
`NotValidComparator` without touching the session (no parameter appended,
no store interaction — `set` performs none in any case); with a `=`
comparator it returns the session with the assignment appended to the set
accumulator (comma-separated after the first) and the operand pushed onto
the parameter list. -/
theorem C7_set_comparator (s : SqliteSession) (e : BaseField) (c0 : Comparator)
    (h : e.comparators.head? = some c0) :
    (c0.comparator ≠ "=" → setVerb s e = .error .notValidComparator) ∧
    (c0.comparator = "=" →
      setVerb s e = .ok { s with
        current_update_set := s.current_update_set ++
          (if s.current_update_set = "set " then "" else ", ") ++
          e.field_name ++ " " ++ c0.comparator ++ " ? ",
        current_params := s.current_params ++ [c0.other] }) := by
  constructor
  · intro hne
    simp [setVerb, h, hne]
  · intro heq
    simp [setVerb, h, heq]

/-- Witness for `C7_set_comparator`: `update(User).set(User.id > 2)` raises
`NotValidComparator`, and `set(User.name == 'Hello')` on a fresh update
session accumulates `set name = ? ` with parameter `'Hello'`. -/
theorem C7_witness :
    setVerb freshSqliteSession ((BaseField.init "id").cmpGt (.vInt 2)) =
      .error .notValidComparator ∧
    setVerb freshSqliteSession ((BaseField.init "name").cmpEq (.vStr "Hello")) =
      .ok { freshSqliteSession with
            current_update_set := "set " ++ "" ++ "name" ++ " " ++ "=" ++ " ? ",
            current_params := [] ++ [Val.vStr "Hello"] } :=
  ⟨(C7_set_comparator freshSqliteSession ((BaseField.init "id").cmpGt (.vInt 2))
      ⟨"id", ">", .vInt 2⟩ rfl).1 (by decide),
   (C7_set_comparator freshSqliteSession ((BaseField.init "name").cmpEq (.vStr "Hello"))
      ⟨"name", "=", .vStr "Hello"⟩ rfl).2 rfl⟩

/-- Claim C9: For an entity with a schema descriptor, both select generators
produce `select E.f1, ..., E.fn from E` with the column list
comma-separated in declaration order; for an entity with no schema
descriptor, `SqliteOrm._generate_select_query` raises `NotValidEntity`,
but `Orm._generate_select_query` (orm.py) propagates the bare
`AttributeError` instead — contradicting the claim and the repository's own
`test_select_none_entity`, which runs `Orm.select(None)` and expects
`NotValidEntity`. -/
theorem C9_select_generation :
    (∀ sch : Schema,
        generateSelectQuery (some sch) =
          .ok ("select " ++ String.intercalate ", "
                (sch.fields.map (fun f => sch.name ++ "." ++ f.name)) ++
              " from " ++ sch.name)) ∧
    generateSelectQuery (some demoSchema) =
      .ok "select User.id, User.name, User.age, User.birth, User.percentage from User" ∧
    generateSelectQuery none = .error .notValidEntity ∧
    ormGenerateSelectQuery none = .error .attributeError ∧
    PyErr.attributeError ≠ PyErr.notValidEntity :=
  ⟨fun _ => rfl, rfl, rfl, rfl, by decide⟩

theorem parseLoop_ok (tc : FieldType → Val → Option Val)
    (dp : Val → Option Val) :
    ∀ (fields : List Field) (row : List Val),
      List.Forall₂ (fun f v => (coerceOne tc dp f v).isSome) fields row →
      parseLoop tc dp fields row =
        .ok (List.zipWith (fun f v => (coerceOne tc dp f v).getD v) fields row) := by
  intro fields row h
  induction h with
  | nil => rfl
  | cons hfv _ ih =>
    obtain ⟨v', hv'⟩ := Option.isSome_iff_exists.mp hfv
    simp [parseLoop, hv', ih]

theorem parseLoop_firstFail (tc : FieldType → Val → Option Val)
    (dp : Val → Option Val) (f : Field) (post : List Field) (v : Val)
    (rest : List Val) (hfail : coerceOne tc dp f v = none) :
    ∀ (pre : List Field) (preVals : List Val),
      List.Forall₂ (fun g w => (coerceOne tc dp g w).isSome) pre preVals →
      parseLoop tc dp (pre ++ f :: post) (preVals ++ v :: rest) =
        .error (.parseFailure f.name f.ftype) := by
  intro pre preVals h
  induction h with
  | nil => simp [parseLoop, hfail]
  | cons hgw _ ih =>
    obtain ⟨w', hw'⟩ := Option.isSome_iff_exists.mp hgw
    simp [parseLoop, hw', ih]

/-- Claim C8: Row-to-record marshaling with coercion enabled coerces each
positional value to its declared field type — timestamp fields via the date
parser, all others via direct type construction (both external
collaborators, passed in as `dp`/`tc`, with `none` standing for the
`TypeError`/`ValueError` they may raise) — and the first coercion failure
raises `ParseError` carrying that field's name and type, aborting the
fetch; with `parse_fields` disabled the raw row is returned unchanged and
unvalidated; the constructor defaults enable the flag. -/
theorem C8_parse_marshaling :
    (∀ (tc : FieldType → Val → Option Val) (dp : Val → Option Val)
        (fields : List Field) (row : List Val),
        parseAndGetNewTuple tc dp false fields row = .ok row) ∧
    (∀ (tc : FieldType → Val → Option Val) (dp : Val → Option Val)
        (f : Field) (v : Val),
        coerceOne tc dp f v =
          if f.ftype = .tDatetime then dp v else tc f.ftype v) ∧
    (∀ (tc : FieldType → Val → Option Val) (dp : Val → Option Val)
        (fields : List Field) (row : List Val),
        List.Forall₂ (fun f v => (coerceOne tc dp f v).isSome) fields row →
        parseAndGetNewTuple tc dp true fields row =
          .ok (List.zipWith (fun f v => (coerceOne tc dp f v).getD v) fields row)) ∧
    (∀ (tc : FieldType → Val → Option Val) (dp : Val → Option Val)
        (pre : List Field) (f : Field) (post : List Field)
        (preVals : List Val) (v : Val) (rest : List Val),
        List.Forall₂ (fun g w => (coerceOne tc dp g w).isSome) pre preVals →
        coerceOne tc dp f v = none →
        parseAndGetNewTuple tc dp true (pre ++ f :: post) (preVals ++ v :: rest) =
          .error (.parseFailure f.name f.ftype)) ∧
    ({} : SqliteOrmConfig).parse_fields = true ∧
    ({} : SqliteOrmConfig).create_tables_if_not_exists = true := by
  refine ⟨?_, fun _ _ _ _ => rfl, ?_, ?_, rfl, rfl⟩
  · intro tc dp fields row
    simp [parseAndGetNewTuple]
  · intro tc dp fields row h
    simpa [parseAndGetNewTuple] using parseLoop_ok tc dp fields row h
  · intro tc dp pre f post preVals v rest h hfail
    simpa [parseAndGetNewTuple] using
      parseLoop_firstFail tc dp f post v rest hfail pre preVals h

/-- Direct type construction for the witness: succeeds exactly on values
already of the declared shape. -/
def tcDemo : FieldType → Val → Option Val
  | .tInt, .vInt n => some (.vInt n)
  | .tStr, .vStr s => some (.vStr s)
  | .tFloat, .vFloat q => some (.vFloat q)
  | _, _ => none

/-- Date parser for the witness: rejects everything. -/
def dpDemo : Val → Option Val := fun _ => none

/-- Witness for `C8_parse_marshaling`: an `(id, birth)` row whose `birth`
column cannot be parsed raises `ParseError("birth", datetime)`; the same
row with coercion succeeding on a single `int` field round-trips. -/
theorem C8_witness :
    parseAndGetNewTuple tcDemo dpDemo true
        ([⟨"id", .tInt⟩] ++ ⟨"birth", .tDatetime⟩ :: [])
        ([Val.vInt 1] ++ Val.vStr "x" :: []) =
      .error (.parseFailure "birth" .tDatetime) ∧
    parseAndGetNewTuple tcDemo dpDemo true [⟨"id", .tInt⟩] [Val.vInt 1] =
      .ok (List.zipWith (fun f v => (coerceOne tcDemo dpDemo f v).getD v)
            [⟨"id", .tInt⟩] [Val.vInt 1]) :=
  ⟨C8_parse_marshaling.2.2.2.1 tcDemo dpDemo [⟨"id", .tInt⟩] ⟨"birth", .tDatetime⟩
      [] [Val.vInt 1] (Val.vStr "x") []
      (List.Forall₂.cons (by decide) List.Forall₂.nil) rfl,
   C8_parse_marshaling.2.2.1 tcDemo dpDemo [⟨"id", .tInt⟩] [Val.vInt 1]
      (List.Forall₂.cons (by decide) List.Forall₂.nil)⟩

/-- Claim C1, counterexample: The claim caps the missing-table retries of
`insert` at one, with a second missing-table failure propagating.  Against
a store whose `CREATE TABLE` silently leaves the table missing, three fuel
units are consumed by three execute attempts (the initial one plus TWO
retries) with the run still recursing (`nofuel`), and no error has
propagated. -/
theorem C1_counterexample :
    (insertRun 3 true [Val.vInt 1] badStore).attempts = 3 ∧
    (insertRun 3 true [Val.vInt 1] badStore).res = .nofuel := ⟨rfl, rfl⟩

theorem insertRun_badStore_succ (n : Nat) (row : List Val) :
    insertRun (n + 1) true row badStore =
      (match (insertRun n true row badStore).res with
       | .ok _ => ⟨.ok (), (insertRun n true row badStore).st,
                   (insertRun n true row badStore).closed && false,
                   (insertRun n true row badStore).attempts + 1⟩
       | .err e2 => ⟨.err e2, (insertRun n true row badStore).st,
                     (insertRun n true row badStore).closed && false,
                     (insertRun n true row badStore).attempts + 1⟩
       | .nofuel => ⟨.nofuel, (insertRun n true row badStore).st, false,
                     (insertRun n true row badStore).attempts + 1⟩) := rfl

theorem bulkInsertRun_badStore_succ (n : Nat) (row : List Val) :
    bulkInsertRun (n + 1) true [row] badStore =
      (match (bulkInsertRun n true [row] badStore).res with
       | .ok _ => ⟨.ok (), (bulkInsertRun n true [row] badStore).st,
                   (bulkInsertRun n true [row] badStore).closed && false,
                   (bulkInsertRun n true [row] badStore).attempts + 1⟩
       | .err e2 => ⟨.err e2, (bulkInsertRun n true [row] badStore).st,
                     (bulkInsertRun n true [row] badStore).closed && false,
                     (bulkInsertRun n true [row] badStore).attempts + 1⟩
       | .nofuel => ⟨.nofuel, (bulkInsertRun n true [row] badStore).st, false,
                     (bulkInsertRun n true [row] badStore).attempts + 1⟩) := rfl

/-- Claim C1, amended: `insert` and `bulk_insert` recover from a missing
table by creating it and recursively re-invoking themselves.  When table
creation makes the table exist, exactly one retry occurs (two execute
attempts in total, independent of any extra fuel) and the operation
succeeds.  The retry count is NOT capped, however: against a store whose
creation silently fails, the recursion never terminates (every fuel bound
is exhausted) and the repeated missing-table failure never propagates. -/
theorem C1_amended :
    (∀ (n : Nat) (row : List Val) (st : Store),
        st.tableExists = false → st.createWorks = true → st.execFault = none →
        insertRun (n + 2) true row st =
          ⟨.ok (), { st with tableExists := true, rows := [row] }, false, 2⟩ ∧
        bulkInsertRun (n + 2) true [row] st =
          ⟨.ok (), { st with tableExists := true, rows := [row] }, false, 2⟩) ∧
    (∀ (n : Nat) (row : List Val),
        (insertRun n true row badStore).res = .nofuel ∧
        (bulkInsertRun n true [row] badStore).res = .nofuel) := by
  constructor
  · intro n row st h1 h2 h3
    constructor
    · simp [insertRun, Store.execInsert, Store.createTable, h1, h2, h3]
    · simp [bulkInsertRun, Store.execInsertMany, Store.createTable, h1, h2, h3]
  · intro n row
    induction n with
    | zero => exact ⟨rfl, rfl⟩
    | succ n ih =>
      obtain ⟨h1, h2⟩ := ih
      constructor
      · rw [insertRun_badStore_succ, h1]
      · rw [bulkInsertRun_badStore_succ, h2]

/-- Witness for `C1_amended` at a conforming store holding no table. -/
theorem C1_witness :
    insertRun 2 true [Val.vInt 1]
        ⟨false, [], true, none⟩ =
      ⟨.ok (), ⟨true, [[Val.vInt 1]], true, none⟩, false, 2⟩ ∧
    (insertRun 5 true [Val.vInt 1] badStore).res = .nofuel :=
  ⟨(C1_amended.1 0 [Val.vInt 1] ⟨false, [], true, none⟩ rfl rfl rfl).1,
   (C1_amended.2 5 [Val.vInt 1]).1⟩

/-- Claim C2: With auto-create enabled, missing-table recovery applies to
`insert`, `bulk_insert`, `all` and `first`: a run against a conforming
store with no table creates it and yields the empty row list (`all`), the
absence marker (`first`), or a successful insert; with auto-create
disabled, every store error — the missing-table `OperationalError`
included — propagates unchanged to the caller. -/
theorem C2_auto_recovery :
    (∀ (parse : List Val → Except PyErr (List Val)) (st : Store),
        st.tableExists = false → st.createWorks = true → st.execFault = none →
        (allRun parse 2 true st).res = .ok [] ∧
        (firstRun parse 2 true st).res = .ok none) ∧
    (∀ (row : List Val) (st : Store),
        st.tableExists = false → st.createWorks = true → st.execFault = none →
        (insertRun 2 true row st).res = .ok () ∧
        (bulkInsertRun 2 true [row] st).res = .ok ()) ∧
    (∀ (parse : List Val → Except PyErr (List Val)) (n : Nat) (st : Store),
        st.tableExists = false → st.execFault = none →
        allRun parse (n + 1) false st = ⟨.err (.operational true), st, false, 1⟩ ∧
        firstRun parse (n + 1) false st = ⟨.err (.operational true), st, false, 1⟩) ∧
    (∀ (parse : List Val → Except PyErr (List Val)) (row : List Val) (n : Nat)
        (st : Store) (e : PyErr),
        st.execFault = some e →
        (allRun parse (n + 1) false st).res = .err e ∧
        (firstRun parse (n + 1) false st).res = .err e ∧
        (insertRun (n + 1) false row st).res = .err e ∧
        (bulkInsertRun (n + 1) false [row] st).res = .err e) := by
  refine ⟨?_, ?_, ?_, ?_⟩
  · intro parse st h1 h2 h3
    constructor
    · simp [allRun, Store.execSelectAll, Store.createTable, parseRows, h1, h2, h3]
    · simp [firstRun, Store.execSelectOne, Store.createTable, h1, h2, h3]
  · intro row st h1 h2 h3
    constructor
    · simp [insertRun, Store.execInsert, Store.createTable, h1, h2, h3]
    · simp [bulkInsertRun, Store.execInsertMany, Store.createTable, h1, h2, h3]
  · intro parse n st h1 h3
    constructor
    · simp [allRun, Store.execSelectAll, h1, h3]
    · simp [firstRun, Store.execSelectOne, h1, h3]
  · intro parse row n st e hf
    refine ⟨?_, ?_, ?_, ?_⟩
    · cases e <;> simp [allRun, Store.execSelectAll, hf]
    · cases e <;> simp [firstRun, Store.execSelectOne, hf]
    · cases e <;> simp [insertRun, Store.execInsert, hf]
    · cases e <;> simp [bulkInsertRun, Store.execInsertMany, hf]

/-- Witness for `C2_auto_recovery` at concrete stores. -/
theorem C2_witness :
    (allRun (fun r => .ok r) 2 true ⟨false, [], true, none⟩).res = .ok [] ∧
    (firstRun (fun r => .ok r) 2 true ⟨false, [], true, none⟩).res = .ok none ∧
    allRun (fun r => .ok r) 1 false ⟨false, [], true, none⟩ =
      ⟨.err (.operational true), ⟨false, [], true, none⟩, false, 1⟩ ∧
    (insertRun 1 false [Val.vInt 1] ⟨false, [], true, some .generic⟩).res =
      .err .generic :=
  ⟨(C2_auto_recovery.1 (fun r => .ok r) ⟨false, [], true, none⟩ rfl rfl rfl).1,
   (C2_auto_recovery.1 (fun r => .ok r) ⟨false, [], true, none⟩ rfl rfl rfl).2,
   (C2_auto_recovery.2.2.1 (fun r => .ok r) 0 ⟨false, [], true, none⟩ rfl rfl).1,
   (C2_auto_recovery.2.2.2 (fun r => .ok r) [Val.vInt 1] 0
      ⟨false, [], true, some .generic⟩ .generic rfl).2.2.1⟩

/-- Embeds `SqliteOrm._final` (the delete- and update-finalization
round-trip): acquire a cursor, execute (or executemany) the accumulated
statement, commit, close; the single `except Exception` handler catches
EVERY failure (there is no `OperationalError` special case and no
recovery here), closes the cursor, and re-raises a wrapped generic
exception (`Woups! => ...`).  The statement's execution is the external
store's business and is passed in as `eff`. -/
def finalRun (eff : Store → Except PyErr Store) (st : Store) : Run Unit :=
  match eff st with
  | .ok st' => ⟨.ok (), st', true, 1⟩
  | .error _ => ⟨.err .generic, st, true, 1⟩

/-- Claim C6, counterexample: The claim says the transient cursor is closed on
every exit path, the empty-result path included.  In `SqliteOrm.first`, a
`None` fetch returns the absence marker BEFORE `cursor.close()` is
reached: on a store with an existing empty table, the run returns `ok none`
with its cursor left open (`closed = false`). -/
theorem C6_counterexample :
    firstRun (fun r => .ok r) 1 true ⟨true, [], true, none⟩ =
      ⟨.ok none, ⟨true, [], true, none⟩, false, 1⟩ := rfl

/-- Claim C6, amended: Cursor closing is path-dependent across the verbs.
Closed before the result or error propagates: `all`'s fetch paths (success
and marshaling failure, the latter re-caught by the generic handler);
`first`'s non-empty fetch (likewise including marshaling failure);
`insert`/`bulk_insert` on success; every non-operational store error in
`all`/`first`/`insert`/`bulk_insert` (the generic handler closes); and
EVERY exit path of `_final`, the delete- and update-finalization
round-trip, whose single generic handler closes before re-raising.  NOT
closed: `first`'s empty-result path (it returns the absence marker before
`cursor.close()`); re-raised `OperationalError`s (e.g. missing table with
auto-create disabled) in all four fetch/insert verbs; and the failed
attempt's cursor on the auto-create recovery path of all four. -/
theorem C6_amended :
    (∀ (parse : List Val → Except PyErr (List Val)) (auto : Bool) (st : Store)
        (n : Nat), st.execFault = none → st.tableExists = true →
        (allRun parse (n + 1) auto st).closed = true) ∧
    (∀ (parse : List Val → Except PyErr (List Val)) (auto : Bool) (st : Store)
        (n : Nat) (row : List Val) (rows : List (List Val)),
        st.execFault = none → st.tableExists = true → st.rows = row :: rows →
        (firstRun parse (n + 1) auto st).closed = true) ∧
    (∀ (parse : List Val → Except PyErr (List Val)) (auto : Bool) (st : Store)
        (n : Nat), st.execFault = none → st.tableExists = true → st.rows = [] →
        firstRun parse (n + 1) auto st = ⟨.ok none, st, false, 1⟩) ∧
    (∀ (auto : Bool) (st : Store) (n : Nat) (row : List Val),
        st.execFault = none → st.tableExists = true →
        insertRun (n + 1) auto row st =
          ⟨.ok (), { st with rows := st.rows ++ [row] }, true, 1⟩ ∧
        bulkInsertRun (n + 1) auto [row] st =
          ⟨.ok (), { st with rows := st.rows ++ [row] }, true, 1⟩) ∧
    (∀ (parse : List Val → Except PyErr (List Val)) (st : Store) (n : Nat)
        (row : List Val), st.execFault = none → st.tableExists = false →
        (allRun parse (n + 1) false st).closed = false ∧
        (firstRun parse (n + 1) false st).closed = false ∧
        (insertRun (n + 1) false row st).closed = false ∧
        (bulkInsertRun (n + 1) false [row] st).closed = false) ∧
    (∀ (parse : List Val → Except PyErr (List Val)) (st : Store) (n : Nat)
        (row : List Val),
        st.execFault = none → st.tableExists = false → st.createWorks = true →
        (allRun parse (n + 2) true st).closed = false ∧
        (firstRun parse (n + 2) true st).closed = false ∧
        (insertRun (n + 2) true row st).closed = false ∧
        (bulkInsertRun (n + 2) true [row] st).closed = false) ∧
    (∀ (parse : List Val → Except PyErr (List Val)) (auto : Bool) (st : Store)
        (n : Nat) (row : List Val) (e : PyErr), st.execFault = some e →
        (∀ b, e ≠ .operational b) →
        (allRun parse (n + 1) auto st).closed = true ∧
        (firstRun parse (n + 1) auto st).closed = true ∧
        (insertRun (n + 1) auto row st).closed = true ∧
        (bulkInsertRun (n + 1) auto [row] st).closed = true) ∧
    (∀ (eff : Store → Except PyErr Store) (st : Store),
        (finalRun eff st).closed = true) := by
  refine ⟨?_, ?_, ?_, ?_, ?_, ?_, ?_, ?_⟩
  · intro parse auto st n h1 h2
    cases hp : parseRows parse st.rows <;>
      simp [allRun, Store.execSelectAll, h1, h2, hp]
  · intro parse auto st n row rows h1 h2 h3
    cases hp : parse row <;>
      simp [firstRun, Store.execSelectOne, h1, h2, h3, hp]
  · intro parse auto st n h1 h2 h3
    simp [firstRun, Store.execSelectOne, h1, h2, h3]
  · intro auto st n row h1 h2
    constructor
    · simp [insertRun, Store.execInsert, h1, h2]
    · simp [bulkInsertRun, Store.execInsertMany, h1, h2]
  · intro parse st n row h1 h2
    refine ⟨?_, ?_, ?_, ?_⟩
    · simp [allRun, Store.execSelectAll, h1, h2]
    · simp [firstRun, Store.execSelectOne, h1, h2]
    · simp [insertRun, Store.execInsert, h1, h2]
    · simp [bulkInsertRun, Store.execInsertMany, h1, h2]
  · intro parse st n row h1 h2 h3
    refine ⟨?_, ?_, ?_, ?_⟩
    · simp [allRun, Store.execSelectAll, Store.createTable, parseRows, h1, h2, h3]
    · simp [firstRun, Store.execSelectOne, Store.createTable, h1, h2, h3]
    · simp [insertRun, Store.execInsert, Store.createTable, h1, h2, h3]
    · simp [bulkInsertRun, Store.execInsertMany, Store.createTable, h1, h2, h3]
  · intro parse auto st n row e hf hne
    cases e with
    | operational b => exact absurd rfl (hne b)
    | _ =>
      refine ⟨?_, ?_, ?_, ?_⟩
      · simp [allRun, Store.execSelectAll, hf]
      · simp [firstRun, Store.execSelectOne, hf]
      · simp [insertRun, Store.execInsert, hf]
      · simp [bulkInsertRun, Store.execInsertMany, hf]
  · intro eff st
    cases h : eff st <;> simp [finalRun, h]

/-- Witness for `C6_amended` at concrete stores. -/
theorem C6_witness :
    (allRun (fun r => .ok r) 1 true ⟨true, [[Val.vInt 1]], true, none⟩).closed
      = true ∧
    (firstRun (fun r => .ok r) 1 true ⟨true, [[Val.vInt 1]], true, none⟩).closed
      = true ∧
    firstRun (fun r => .ok r) 1 true ⟨true, [], true, none⟩ =
      ⟨.ok none, ⟨true, [], true, none⟩, false, 1⟩ ∧
    insertRun 1 true [Val.vInt 1] ⟨true, [], true, none⟩ =
      ⟨.ok (), ⟨true, [[Val.vInt 1]], true, none⟩, true, 1⟩ ∧
    (allRun (fun r => .ok r) 1 false ⟨false, [], true, none⟩).closed = false ∧
    (insertRun 2 true [Val.vInt 1] ⟨false, [], true, none⟩).closed = false ∧
    (firstRun (fun r => .ok r) 1 true ⟨true, [], true, some .generic⟩).closed
      = true ∧
    (finalRun (fun _ => .error .generic) ⟨true, [], true, none⟩).closed = true :=
  ⟨C6_amended.1 (fun r => .ok r) true ⟨true, [[Val.vInt 1]], true, none⟩ 0 rfl rfl,
   C6_amended.2.1 (fun r => .ok r) true ⟨true, [[Val.vInt 1]], true, none⟩ 0
     [Val.vInt 1] [] rfl rfl rfl,
   C6_amended.2.2.1 (fun r => .ok r) true ⟨true, [], true, none⟩ 0 rfl rfl rfl,
   (C6_amended.2.2.2.1 true ⟨true, [], true, none⟩ 0 [Val.vInt 1] rfl rfl).1,
   (C6_amended.2.2.2.2.1 (fun r => .ok r) ⟨false, [], true, none⟩ 0 [Val.vInt 1]
     rfl rfl).1,
   (C6_amended.2.2.2.2.2.1 (fun r => .ok r) ⟨false, [], true, none⟩ 0 [Val.vInt 1]
     rfl rfl rfl).2.2.1,
   (C6_amended.2.2.2.2.2.2.1 (fun r => .ok r) true ⟨true, [], true, some .generic⟩
     0 [Val.vInt 1] .generic rfl (fun b h => by cases h)).2.1,
   C6_amended.2.2.2.2.2.2.2 (fun _ => .error .generic) ⟨true, [], true, none⟩⟩

end SkinnyOrm
